import Mathlib

/-!
Shallow embedding of the TikTok marketing dashboard (`src/main.py`):
the session gate (`get_db_connection`, `verify_login`, the login form
handler, `logout`), the query/webhook gateway (`execute_query`,
`send_approval_webhook`), the product-management handlers (add product,
view-products filter query, delete confirmation) and the analytics
upload-history summary.

Database connections are modelled by numeric identifiers; the `World`
records which connection identifiers are currently open.  External
nondeterminism (database reachability, the stored-procedure credential
check, outcome of a SQL statement, HTTP response status) is supplied by
environment records, one field per external decision point of the
Python code.  User-visible `st.error`/`st.success` output is collected
in a message list, and side effects on connections and HTTP in an
event list.
-/

/-- Streamlit session state relevant to the session gate:
`st.session_state.authenticated`, `.username`, `.db_connection`. -/
structure SessionState where
  authenticated : Bool
  username : Option String
  dbConnection : Option Nat
  deriving DecidableEq, Repr

/-- The connection world: which connection ids are open, and the id the
next `psycopg2.connect` call would return. -/
structure World where
  openConns : List Nat
  nextId : Nat
  deriving DecidableEq, Repr

/-- Observable side effects of the embedded code. -/
inductive Event where
  | connect (c : Nat)
  | closeConn (c : Nat)
  | commit (c : Nat)
  | rollback (c : Nat)
  deriving DecidableEq, Repr

/-- Environment for database-touching code: whether `psycopg2.connect`
succeeds, the exception text when it does not, the outcome of the
`verify_dashboard_password` SELECT (`none` models the statement raising,
`some b` models a fetched row whose `is_valid` is `b`), and whether the
last-login UPDATE/commit succeeds. -/
structure DbEnv where
  reachable : Bool
  connectErrMsg : String
  credCheck : Option Bool
  updateOk : Bool
  deriving DecidableEq, Repr

/-- Result of one embedded step: returned value, updated session state
and world, emitted events, and user-visible messages. -/
structure StepOut (α : Type) where
  val : α
  state : SessionState
  world : World
  events : List Event
  msgs : List String
  deriving Repr

/-- Embeds `get_db_connection` (src/main.py lines 95-127): reuse the
stored connection when it exists and is not closed; otherwise connect,
store the new connection in the session, and on failure show
`Database connection failed: ...` and return `None`. -/
def get_db_connection (env : DbEnv) (s : SessionState) (w : World) :
    StepOut (Option Nat) :=
  let reuse : Bool :=
    match s.dbConnection with
    | some c => c ∈ w.openConns
    | none => false
  if reuse then
    ⟨s.dbConnection, s, w, [], []⟩
  else if env.reachable then
    let c := w.nextId
    ⟨some c, { s with dbConnection := some c },
      ⟨c :: w.openConns, w.nextId + 1⟩, [.connect c], []⟩
  else
    ⟨none, s, w, [], ["Database connection failed: " ++ env.connectErrMsg]⟩

/-- Embeds `verify_login` (src/main.py lines 129-158): acquire a
connection (`False` when none), run the `verify_dashboard_password`
stored function, on a valid result update `last_login` and commit and
return `True`; every failure or exception yields `False`. -/
def verify_login (env : DbEnv) (s : SessionState) (w : World) :
    StepOut Bool :=
  let g := get_db_connection env s w
  match g.val with
  | none => ⟨false, g.state, g.world, g.events, g.msgs⟩
  | some c =>
    match env.credCheck with
    | none => ⟨false, g.state, g.world, g.events, g.msgs⟩
    | some false => ⟨false, g.state, g.world, g.events, g.msgs⟩
    | some true =>
      if env.updateOk then
        ⟨true, g.state, g.world, g.events ++ [.commit c], g.msgs⟩
      else
        ⟨false, g.state, g.world, g.events, g.msgs⟩

/-- Embeds the submit branch of `login_page` (src/main.py lines
172-179): on success set `authenticated` and `username` and show
`Login successful!`; otherwise show `Invalid username or password`. -/
def login_submit (env : DbEnv) (username : String) (s : SessionState)
    (w : World) : StepOut Bool :=
  let v := verify_login env s w
  if v.val then
    ⟨true, { v.state with authenticated := true, username := some username },
      v.world, v.events, v.msgs ++ ["Login successful!"]⟩
  else
    ⟨false, v.state, v.world, v.events,
      v.msgs ++ ["Invalid username or password"]⟩

/-- Embeds `logout` (src/main.py lines 186-193): close the stored
connection when it is open, then clear `authenticated`, `username` and
`db_connection`. -/
def logout (s : SessionState) (w : World) :
    SessionState × World × List Event :=
  match s.dbConnection with
  | some c =>
    if c ∈ w.openConns then
      (⟨false, none, none⟩, ⟨w.openConns.erase c, w.nextId⟩, [.closeConn c])
    else
      (⟨false, none, none⟩, w, [])
  | none => (⟨false, none, none⟩, w, [])

/-- Outcome of executing one SQL statement on an acquired connection:
either it succeeds with fetched rows, or it raises; a raising statement
may additionally leave the connection closed (server gone). -/
inductive QueryOutcome (α : Type) where
  | ok (rows : List α)
  | err (connStillOpen : Bool) (msg : String)
  deriving DecidableEq, Repr

/-- Return value of `execute_query`: Python `None` (failure sentinel),
a fetched row list, or Python `True`. -/
inductive QueryRet (α : Type) where
  | sentinel
  | rows (rs : List α)
  | ok
  deriving DecidableEq, Repr

/-- Embeds `execute_query` (src/main.py lines 195-222): acquire (or
reuse) the session connection, `None` when that fails; execute the
statement, on success either fetch and return the rows (`fetch=True`)
or commit and return `True`; on an exception roll back when the
connection is still open, show `Query execution failed: ...` and
return `None`. -/
def execute_query {α : Type} (env : DbEnv) (outcome : QueryOutcome α)
    (fetch : Bool) (s : SessionState) (w : World) : StepOut (QueryRet α) :=
  let g := get_db_connection env s w
  match g.val with
  | none => ⟨.sentinel, g.state, g.world, g.events, g.msgs⟩
  | some c =>
    match outcome with
    | .ok rs =>
      if fetch then
        ⟨.rows rs, g.state, g.world, g.events, g.msgs⟩
      else
        ⟨.ok, g.state, g.world, g.events ++ [.commit c], g.msgs⟩
    | .err stillOpen m =>
      if stillOpen then
        ⟨.sentinel, g.state, g.world, g.events ++ [.rollback c],
          g.msgs ++ ["Query execution failed: " ++ m]⟩
      else
        ⟨.sentinel, g.state, ⟨g.world.openConns.erase c, g.world.nextId⟩,
          g.events, g.msgs ++ ["Query execution failed: " ++ m]⟩

/-- JSON payload sent by `send_approval_webhook`; `reason = none`
models a payload without a `reason` key. -/
structure Payload where
  content_id : Nat
  action : String
  reason : Option String
  deriving DecidableEq, Repr

/-- Environment for `send_approval_webhook`: the `N8N_WEBHOOK_URL`
environment variable (`none` = unset) and the HTTP response status of
the POST (`none` = network failure / timeout exception). -/
structure WebhookEnv where
  webhookUrl : Option String
  postStatus : Option Nat
  deriving DecidableEq, Repr

/-- Records of HTTP POSTs made: target URL, payload, timeout seconds. -/
structure PostEvent where
  url : String
  payload : Payload
  timeout : Nat
  deriving DecidableEq, Repr

/-- Embeds `send_approval_webhook` (src/main.py lines 224-250): fail
when the URL is unset (or empty, Python falsiness); build the payload,
adding `reason` only when truthy; POST once with `timeout=30`;
`response.raise_for_status()` raises exactly for statuses in
[400, 600), which the handler turns into `False`.  Session state and
the connection world are passed through untouched: the function body
performs no session or database access. -/
def send_approval_webhook (env : WebhookEnv) (content_id : Nat)
    (action : String) (reason : Option String) (s : SessionState)
    (w : World) : Bool × List PostEvent × SessionState × World :=
  match env.webhookUrl with
  | none => (false, [], s, w)
  | some url =>
    if url = "" then (false, [], s, w)
    else
      let payload : Payload :=
        { content_id := content_id, action := action,
          reason := match reason with
            | none => none
            | some r => if r = "" then none else some r }
      let posts := [⟨url, payload, 30⟩]
      match env.postStatus with
      | none => (false, posts, s, w)
      | some status =>
        if 400 ≤ status ∧ status < 600 then (false, posts, s, w)
        else (true, posts, s, w)

/-- A row of the `products` table, restricted to the columns the
view-products filter query inspects, plus `id` and `created_at`. -/
structure Product where
  id : Nat
  product_id : String
  title : String
  source : String
  status : String
  category : String
  created_at : Nat
  deriving DecidableEq, Repr

/-- The four filter widgets of the View Products tab
(src/main.py lines 784-803). -/
structure ProductFilters where
  source : String
  status : String
  category : String
  search : String
  deriving DecidableEq, Repr

/-- A WHERE-clause condition appended by the query builder. -/
inductive Cond where
  | srcEq (v : String)
  | statusEq (v : String)
  | catEq (v : String)
  | titleIlike (pat : String)
  deriving DecidableEq, Repr

/-- Embeds the dynamic WHERE-clause assembly (src/main.py lines
824-840): one condition per filter whose value is not `All` (nonempty,
for the search box), in source order. -/
def buildConds (f : ProductFilters) : List Cond :=
  (if f.source ≠ "All" then [.srcEq f.source] else []) ++
  (if f.status ≠ "All" then [.statusEq f.status] else []) ++
  (if f.category ≠ "All" then [.catEq f.category] else []) ++
  (if f.search ≠ "" then [.titleIlike ("%" ++ f.search ++ "%")] else [])

/-- The positional parameters bound alongside `buildConds`
(src/main.py lines 828, 832, 836, 840). -/
def buildParams (f : ProductFilters) : List String :=
  (if f.source ≠ "All" then [f.source] else []) ++
  (if f.status ≠ "All" then [f.status] else []) ++
  (if f.category ≠ "All" then [f.category] else []) ++
  (if f.search ≠ "" then ["%" ++ f.search ++ "%"] else [])

/-- SQL LIKE matching over character lists: `%` matches any run of
characters (some suffix of the remaining text is matched by the rest
of the pattern), `_` any single character, other characters match
case-insensitively (ILIKE). -/
def likeMatch : List Char → List Char → Bool
  | [], [] => true
  | [], _ :: _ => false
  | '%' :: ps, s => s.tails.any (fun suffix => likeMatch ps suffix)
  | '_' :: _, [] => false
  | '_' :: ps, _ :: s => likeMatch ps s
  | _ :: _, [] => false
  | p :: ps, c :: s => (p.toLower == c.toLower) && likeMatch ps s

/-- PostgreSQL `title ILIKE pattern` as a Boolean predicate. -/
def ilike (s pat : String) : Bool :=
  likeMatch pat.toList s.toList

/-- Semantics of one assembled condition on a product row. -/
def condHolds (p : Product) : Cond → Bool
  | .srcEq v => p.source == v
  | .statusEq v => p.status == v
  | .catEq v => p.category == v
  | .titleIlike pat => ilike p.title pat

/-- A row satisfies the assembled WHERE clause iff it satisfies every
appended condition. -/
def rowMatches (f : ProductFilters) (p : Product) : Bool :=
  (buildConds f).all (condHolds p)

/-- The `ORDER BY created_at DESC` ordering as a relation on rows. -/
def createdDescOrder (a b : Product) : Prop :=
  b.created_at ≤ a.created_at

instance : DecidableRel createdDescOrder :=
  fun a b => Nat.decLe b.created_at a.created_at

/-- Semantics of the full view-products query (src/main.py lines
806-844): rows of the table satisfying the assembled WHERE clause,
ordered by `created_at DESC` (a sort by `createdDescOrder`), truncated
by `LIMIT 50`. -/
def viewProductsRows (f : ProductFilters) (table : List Product) :
    List Product :=
  ((table.filter (rowMatches f)).insertionSort createdDescOrder).take 50

/-- The Add Product form fields (src/main.py lines 645-706). -/
structure AddProductInput where
  product_id : String
  title : String
  price : ℚ
  category : String
  source : String
  shopify_url : String
  tiktok_shop_url : String
  image_urls : String
  description : String
  deriving DecidableEq, Repr

/-- Python `str.split` on a newline separator, over character lists:
the empty text yields one empty field, and each newline starts a new
field. -/
def splitNl : List Char → List (List Char)
  | [] => [[]]
  | c :: rest =>
    match splitNl rest with
    | [] => [[]]
    | field :: fields =>
      if c = '\n' then [] :: field :: fields
      else (c :: field) :: fields

/-- Python `str.strip()` over character lists: drop leading and
trailing whitespace. -/
def trimChars (l : List Char) : List Char :=
  ((l.dropWhile Char.isWhitespace).reverse.dropWhile
    Char.isWhitespace).reverse

/-- Embeds the image-URL processing (src/main.py lines 727-732): split
the text area on newlines, keep lines with nonblank strip, strip each,
keep the first 5. -/
def imagesList (image_urls : String) : List String :=
  if image_urls = "" then []
  else
    ((((splitNl image_urls.toList).filter
      (fun url => trimChars url ≠ [])).map
        (fun url => String.mk (trimChars url))).take 5)

/-- Embeds the PostgreSQL array formatting (src/main.py lines
734-738): an empty list becomes `\x7b\x7d`, otherwise the quoted URLs
joined by commas between braces. -/
def imagesArray (urls : List String) : String :=
  if urls = [] then ("\x7b\x7d")
  else ("\x7b") ++ String.intercalate (",")
    (urls.map (fun url => "\"" ++ url ++ "\"")) ++ "\x7d"

/-- The bound parameters of the INSERT (src/main.py line 761) together
with the literal status written by the statement text
(src/main.py line 756). -/
structure InsertedProduct where
  source : String
  product_id : String
  title : String
  description : String
  price : ℚ
  category : String
  images : String
  shopify_url : Option String
  tiktok_shop_url : Option String
  status : String
  deriving DecidableEq, Repr

/-- Result of the Add Product submit handler: a validation error shown
before any I/O, or the attempted INSERT. -/
inductive AddProductResult where
  | validationError (msg : String)
  | inserted (row : InsertedProduct)
  deriving DecidableEq, Repr

/-- Embeds the Add Product submit handler (src/main.py lines 719-763):
reject empty `product_id`/`title`/`description`, then non-positive
price, before any database access; otherwise issue the INSERT whose
status column is the literal `pending_content_generation`. -/
def addProductSubmit (inp : AddProductInput) : AddProductResult :=
  if inp.product_id = "" ∨ inp.title = "" ∨ inp.description = "" then
    .validationError ("Product ID, Title, and Description are required fields")
  else if inp.price ≤ 0 then
    .validationError ("Price must be greater than 0")
  else
    .inserted
      { source := inp.source
        product_id := inp.product_id
        title := inp.title
        description := inp.description
        price := inp.price
        category := inp.category
        images := imagesArray (imagesList inp.image_urls)
        shopify_url := if inp.shopify_url = "" then none else some inp.shopify_url
        tiktok_shop_url :=
          if inp.tiktok_shop_url = "" then none else some inp.tiktok_shop_url
        status := "pending_content_generation" }

/-- Effect of `DELETE FROM products WHERE id = %s` on the table:
removes every row with the given id; deleting an absent id is not a
SQL error. -/
def deleteProduct (table : List Product) (pid : Nat) : List Product :=
  table.filter (fun p => p.id ≠ pid)

/-- Embeds the delete confirmation handler (src/main.py lines
936-944): run the DELETE through `execute_query` with `fetch=False`;
when it returns `True` show `Product deleted successfully!`.  Returns
the table after the statement, the session state and world after
`execute_query`, and the user-visible messages. -/
def deleteConfirm (env : DbEnv) (table : List Product) (pid : Nat)
    (s : SessionState) (w : World) :
    List Product × SessionState × World × List String :=
  let q := execute_query env (QueryOutcome.ok ([] : List Product)) false s w
  match q.val with
  | .ok => (deleteProduct table pid, q.state, q.world,
      q.msgs ++ ["Product deleted successfully!"])
  | _ => (table, q.state, q.world, q.msgs)

/-- One item of the Upload-Post history list; `success` is the JSON
`success` field (`none` = key absent), `platform` likewise. -/
structure HistoryItem where
  platform : Option String
  success : Option Bool
  deriving DecidableEq, Repr

/-- Embeds the platform filtering (src/main.py lines 1260-1263):
keep items whose `platform` is among the selected platforms. -/
def filteredHistory (platformFilter : List String)
    (items : List HistoryItem) : List HistoryItem :=
  items.filter (fun i =>
    match i.platform with
    | some pl => platformFilter.contains pl
    | none => false)

/-- `total_uploads` (src/main.py line 1271). -/
def totalUploads (platformFilter : List String)
    (items : List HistoryItem) : Nat :=
  (filteredHistory platformFilter items).length

/-- `successful_uploads` (src/main.py line 1272): items whose
`success` field is truthy. -/
def successfulUploads (platformFilter : List String)
    (items : List HistoryItem) : Nat :=
  ((filteredHistory platformFilter items).filter
    (fun i => i.success = some true)).length

/-- `failed_uploads` (src/main.py line 1273). -/
def failedUploads (platformFilter : List String)
    (items : List HistoryItem) : Nat :=
  totalUploads platformFilter items - successfulUploads platformFilter items

/-- `success_rate` (src/main.py line 1274), as an exact rational. -/
def successRate (platformFilter : List String)
    (items : List HistoryItem) : ℚ :=
  if 0 < totalUploads platformFilter items then
    (successfulUploads platformFilter items : ℚ) /
      (totalUploads platformFilter items : ℚ) * 100
  else 0

/-- Substring test: `sub` occurs in `s`. -/
def strContains (s sub : String) : Bool :=
  decide (sub.toList <:+: s.toList)

/-- Consistency of the session with the connection world: open
connections are pairwise distinct and every open connection is the one
stored in the session.  It holds initially (no connection, nothing
open) and is preserved by every embedded operation. -/
def sessionInv (s : SessionState) (w : World) : Prop :=
  w.openConns.Nodup ∧ ∀ c ∈ w.openConns, s.dbConnection = some c

lemma nodup_forall_eq {l : List Nat} {c : Nat} (hn : l.Nodup)
    (hall : ∀ x ∈ l, x = c) (hc : c ∈ l) : l = [c] := by
  cases l with
  | nil => cases hc
  | cons x t =>
    cases t with
    | nil =>
      have hx : x = c := hall x (List.mem_cons_self x [])
      rw [hx]
    | cons y t2 =>
      have hx : x = c := hall x (by simp)
      have hy : y = c := hall y (by simp)
      rw [hx, hy] at hn
      simp [List.nodup_cons] at hn

lemma gdc_flags (env : DbEnv) (s : SessionState) (w : World) :
    (get_db_connection env s w).state.authenticated = s.authenticated ∧
    (get_db_connection env s w).state.username = s.username := by
  obtain ⟨a, u, d⟩ := s
  cases d with
  | none =>
    by_cases hr : env.reachable <;> simp [get_db_connection, hr]
  | some c =>
    by_cases hm : c ∈ w.openConns <;>
      by_cases hr : env.reachable <;>
        simp [get_db_connection, hm, hr]

lemma gdc_some_msgs (env : DbEnv) (s : SessionState) (w : World) (c : Nat)
    (h : (get_db_connection env s w).val = some c) :
    (get_db_connection env s w).msgs = [] := by
  obtain ⟨a, u, d⟩ := s
  cases d with
  | none =>
    by_cases hr : env.reachable <;> simp_all [get_db_connection, hr]
  | some c0 =>
    by_cases hm : c0 ∈ w.openConns <;>
      by_cases hr : env.reachable <;>
        simp_all [get_db_connection, hm, hr]

lemma gdc_inv (env : DbEnv) (s : SessionState) (w : World)
    (hinv : sessionInv s w) :
    (∃ c, (get_db_connection env s w).val = some c ∧
      (get_db_connection env s w).world.openConns = [c] ∧
      (get_db_connection env s w).state.dbConnection = some c) ∨
    ((get_db_connection env s w).val = none ∧
      (get_db_connection env s w).state = s ∧
      (get_db_connection env s w).world = w) := by
  obtain ⟨hn, hall⟩ := hinv
  obtain ⟨a, u, d⟩ := s
  cases d with
  | none =>
    have hempty : w.openConns = [] := by
      cases hw : w.openConns with
      | nil => rfl
      | cons x t =>
        have := hall x (by rw [hw]; exact List.mem_cons_self x t)
        simp at this
    by_cases hr : env.reachable <;> simp [get_db_connection, hr, hempty]
  | some c0 =>
    by_cases hm : c0 ∈ w.openConns
    · left
      refine ⟨c0, ?_⟩
      have hall' : ∀ x ∈ w.openConns, x = c0 := by
        intro x hx
        have hcx : c0 = x := by simpa using hall x hx
        exact hcx.symm
      have : w.openConns = [c0] := nodup_forall_eq hn hall' hm
      simp [get_db_connection, hm, this]
    · have hempty : w.openConns = [] := by
        cases hw : w.openConns with
        | nil => rfl
        | cons x t =>
          exfalso
          have hx : c0 = x := by
            simpa using hall x (by rw [hw]; exact List.mem_cons_self x t)
          rw [hw] at hm
          exact hm (by rw [hx]; exact List.mem_cons_self x t)
      by_cases hr : env.reachable <;> simp [get_db_connection, hm, hr, hempty]

lemma openConns_empty_of_not_reusable (s : SessionState) (w : World)
    (hinv : sessionInv s w)
    (h : ∀ c, s.dbConnection = some c → c ∉ w.openConns) :
    w.openConns = [] := by
  obtain ⟨_, hall⟩ := hinv
  cases hw : w.openConns with
  | nil => rfl
  | cons x t =>
    exfalso
    have hx := hall x (by rw [hw]; exact List.mem_cons_self x t)
    exact h x hx (by rw [hw]; exact List.mem_cons_self x t)

lemma openConns_singleton_of_stored (s : SessionState) (w : World)
    (hinv : sessionInv s w) (c : Nat) (hs : s.dbConnection = some c)
    (hm : c ∈ w.openConns) : w.openConns = [c] := by
  obtain ⟨hn, hall⟩ := hinv
  refine nodup_forall_eq hn ?_ hm
  intro x hx
  have := hall x hx
  rw [hs] at this
  simpa using this.symm

lemma verify_login_shape (env : DbEnv) (s : SessionState) (w : World) :
    (verify_login env s w).state = (get_db_connection env s w).state ∧
    (verify_login env s w).world = (get_db_connection env s w).world ∧
    (verify_login env s w).msgs = (get_db_connection env s w).msgs := by
  cases hg : (get_db_connection env s w).val with
  | none => simp [verify_login, hg]
  | some c =>
    cases hc : env.credCheck with
    | none => simp [verify_login, hg, hc]
    | some b =>
      cases b with
      | false => simp [verify_login, hg, hc]
      | true => by_cases hu : env.updateOk <;> simp [verify_login, hg, hc, hu]

lemma verify_login_true_conn (env : DbEnv) (s : SessionState) (w : World)
    (h : (verify_login env s w).val = true) :
    ∃ c, (get_db_connection env s w).val = some c := by
  cases hg : (get_db_connection env s w).val with
  | none => simp [verify_login, hg] at h
  | some c => exact ⟨c, rfl⟩

lemma login_submit_shape (env : DbEnv) (u : String) (s : SessionState)
    (w : World) :
    (login_submit env u s w).world = (verify_login env s w).world ∧
    ((login_submit env u s w).val = false →
      (login_submit env u s w).state = (verify_login env s w).state) ∧
    ((login_submit env u s w).val = (verify_login env s w).val) := by
  unfold login_submit
  by_cases hv : (verify_login env s w).val <;> simp [hv]

/-- C1 (amended): when login fails, the session's `authenticated` flag
and `username` are unchanged (so starting unauthenticated with no
username they stay `false`/`none`); the original claim's further
guarantee — that no connection is left open or stored — does not hold,
see the counterexample. -/
theorem C1_login_failure_preserves_session (env : DbEnv) (u : String)
    (s : SessionState) (w : World)
    (hfail : (login_submit env u s w).val = false) :
    (login_submit env u s w).state.authenticated = s.authenticated ∧
    (login_submit env u s w).state.username = s.username := by
  have hshape := login_submit_shape env u s w
  have hstate := hshape.2.1 hfail
  have hv := verify_login_shape env s w
  have hg := gdc_flags env s w
  rw [hstate, hv.1]
  exact hg

/-- C1 witness: a concrete failing login (wrong password, reachable
database) leaves `authenticated = false` and `username = none`. -/
theorem C1_witness :
    (login_submit ⟨true, "conn refused", some false, true⟩ ("alice")
      ⟨false, none, none⟩ ⟨[], 0⟩).state.authenticated = false ∧
    (login_submit ⟨true, "conn refused", some false, true⟩ ("alice")
      ⟨false, none, none⟩ ⟨[], 0⟩).state.username = none := by
  have h := C1_login_failure_preserves_session
    ⟨true, "conn refused", some false, true⟩ ("alice")
    ⟨false, none, none⟩ ⟨[], 0⟩ (by decide)
  exact h

/-- C1 counterexample: with a reachable database and invalid
credentials, login fails yet a freshly opened connection is stored in
the session and remains open — refuting the claim that after every
failed login no connection is left open or stored. -/
theorem C1_counterexample :
    (login_submit ⟨true, "conn refused", some false, true⟩ ("alice")
      ⟨false, none, none⟩ ⟨[], 0⟩).val = false ∧
    (login_submit ⟨true, "conn refused", some false, true⟩ ("alice")
      ⟨false, none, none⟩ ⟨[], 0⟩).state.dbConnection = some 0 ∧
    0 ∈ (login_submit ⟨true, "conn refused", some false, true⟩ ("alice")
      ⟨false, none, none⟩ ⟨[], 0⟩).world.openConns := by
  refine ⟨by decide, by decide, by decide⟩

/-- C2: `logout` closes the held connection when one is open and
unconditionally resets the whole session state, leaving zero open
connections; a successful login leaves exactly one open connection.
The hypothesis `sessionInv` says the prior world is consistent with the
session (open connections are exactly the stored one), which holds in
every reachable configuration. -/
theorem C2_logout_closes_login_opens (env : DbEnv) (u : String)
    (s : SessionState) (w : World) (hinv : sessionInv s w) :
    (logout s w).1 = ⟨false, none, none⟩ ∧
    (logout s w).2.1.openConns = [] ∧
    (∀ c, s.dbConnection = some c → c ∈ w.openConns →
      (logout s w).2.2 = [Event.closeConn c]) ∧
    ((login_submit env u s w).val = true →
      (login_submit env u s w).world.openConns.length = 1) := by
  refine ⟨?_, ?_, ?_, ?_⟩
  · cases hd : s.dbConnection with
    | none => simp [logout, hd]
    | some c => by_cases hm : c ∈ w.openConns <;> simp [logout, hd, hm]
  · cases hd : s.dbConnection with
    | none =>
      have hempty : w.openConns = [] :=
        openConns_empty_of_not_reusable s w hinv
          (by intro c hc; rw [hd] at hc; cases hc)
      simp [logout, hd, hempty]
    | some c =>
      by_cases hm : c ∈ w.openConns
      · have hone : w.openConns = [c] :=
          openConns_singleton_of_stored s w hinv c hd hm
        simp [logout, hd, hm, hone]
      · have hempty : w.openConns = [] :=
          openConns_empty_of_not_reusable s w hinv
            (by intro c2 hc2; rw [hd] at hc2; cases hc2; exact hm)
        simp [logout, hd, hm, hempty]
  · intro c hd hm
    simp [logout, hd, hm]
  · intro hsucc
    have hls := login_submit_shape env u s w
    have hvtrue : (verify_login env s w).val = true := by
      rw [hls.2.2] at hsucc; exact hsucc
    obtain ⟨c, hg⟩ := verify_login_true_conn env s w hvtrue
    have hcases := gdc_inv env s w hinv
    rcases hcases with ⟨c2, hval, hconns, _⟩ | ⟨hnone, _, _⟩
    · rw [hls.1, (verify_login_shape env s w).2.1, hconns]
      rfl
    · rw [hg] at hnone; cases hnone

/-- C2 witness: logging out from an authenticated session with one
open connection leaves none open; a concrete successful login opens
exactly one connection. -/
theorem C2_witness :
    (logout ⟨true, some ("alice"), some 0⟩ ⟨[0], 1⟩).2.1.openConns = [] ∧
    (login_submit ⟨true, "", some true, true⟩ ("alice") ⟨false, none, none⟩
      ⟨[], 0⟩).world.openConns.length = 1 := by
  have h1 := C2_logout_closes_login_opens ⟨true, "", some true, true⟩
    ("alice") ⟨true, some ("alice"), some 0⟩ ⟨[0], 1⟩ (by constructor <;> decide)
  have h2 := C2_logout_closes_login_opens ⟨true, "", some true, true⟩
    ("alice") ⟨false, none, none⟩ ⟨[], 0⟩ (by constructor <;> decide)
  exact ⟨h1.2.1, h2.2.2.2 (by decide)⟩

/-- C3: `execute_query` is total (every failure is caught by its
handler rather than propagated): when the statement fails it returns
the sentinel `None`, rolling back when the connection is still open;
when the statement succeeds it returns the fetched rows for
`fetch=True` and commits and returns `True` for `fetch=False`; when no
connection can be acquired it returns `None`. -/
theorem C3_execute_query_contract {α : Type} (env : DbEnv) (rs : List α)
    (stillOpen : Bool) (m : String) (fetch : Bool) (s : SessionState)
    (w : World) :
    ((execute_query env (QueryOutcome.err stillOpen m : QueryOutcome α) fetch s w).val =
      QueryRet.sentinel) ∧
    (∀ c, (get_db_connection env s w).val = some c → stillOpen = true →
      Event.rollback c ∈
        (execute_query env (QueryOutcome.err stillOpen m : QueryOutcome α) fetch s w).events) ∧
    ((get_db_connection env s w).val = none →
      (execute_query env (QueryOutcome.ok rs) fetch s w).val =
        QueryRet.sentinel) ∧
    (∀ c, (get_db_connection env s w).val = some c → fetch = true →
      (execute_query env (QueryOutcome.ok rs) fetch s w).val =
        QueryRet.rows rs) ∧
    (∀ c, (get_db_connection env s w).val = some c → fetch = false →
      (execute_query env (QueryOutcome.ok rs) fetch s w).val =
        QueryRet.ok ∧
      Event.commit c ∈
        (execute_query env (QueryOutcome.ok rs) fetch s w).events) := by
  refine ⟨?_, ?_, ?_, ?_, ?_⟩
  · cases hg : (get_db_connection env s w).val with
    | none => simp [execute_query, hg]
    | some c =>
      by_cases ho : stillOpen <;> simp [execute_query, hg, ho]
  · intro c hg hopen
    simp [execute_query, hg, hopen]
  · intro hg
    simp [execute_query, hg]
  · intro c hg hfetch
    simp [execute_query, hg, hfetch]
  · intro c hg hfetch
    simp [execute_query, hg, hfetch]

/-- C3 witness: on a fresh reachable session, a failing statement
returns the sentinel and rolls back, and a subsequent valid statement
on the same session returns its rows. -/
theorem C3_witness :
    (execute_query ⟨true, "", some true, true⟩
      (QueryOutcome.err true ("syntax error") : QueryOutcome Nat) true
      ⟨false, none, none⟩ ⟨[], 0⟩).val = QueryRet.sentinel ∧
    Event.rollback 0 ∈ (execute_query ⟨true, "", some true, true⟩
      (QueryOutcome.err true ("syntax error") : QueryOutcome Nat) true
      ⟨false, none, none⟩ ⟨[], 0⟩).events ∧
    (execute_query ⟨true, "", some true, true⟩
      (QueryOutcome.ok [42]) true ⟨false, none, none⟩ ⟨[], 0⟩).val =
      QueryRet.rows [42] := by
  have h := C3_execute_query_contract (α := Nat) ⟨true, "", some true, true⟩
    [42] true ("syntax error") true ⟨false, none, none⟩ ⟨[], 0⟩
  exact ⟨h.1, h.2.1 0 (by decide) rfl, h.2.2.2.1 0 (by decide) rfl⟩

/-- C4 (amended): `send_approval_webhook` serializes a payload with
`content_id`, `action`, and `reason` when a non-empty reason is given,
POSTs it exactly once with a 30-second timeout, and returns `False` on
a 4xx/5xx response (the statuses `raise_for_status` raises for), a
network failure, or an unconfigured or empty webhook URL; session and
database state are never modified.  The original claim's `non-2xx`
failure condition is refuted by the 304 counterexample. -/
theorem C4_webhook_contract (env : WebhookEnv) (content_id : Nat)
    (action : String) (reason : Option String) (s : SessionState)
    (w : World) :
    ((env.webhookUrl = none ∨ env.webhookUrl = some ("")) →
      send_approval_webhook env content_id action reason s w =
        (false, [], s, w)) ∧
    (∀ url, env.webhookUrl = some url → url ≠ "" →
      (send_approval_webhook env content_id action reason s w).2.1 =
        [⟨url,
          ⟨content_id, action,
            match reason with
            | none => none
            | some r => if r = "" then none else some r⟩, 30⟩] ∧
      ((send_approval_webhook env content_id action reason s w).1 = true ↔
        ∃ status, env.postStatus = some status ∧
          ¬(400 ≤ status ∧ status < 600))) ∧
    (send_approval_webhook env content_id action reason s w).2.2.1 = s ∧
    (send_approval_webhook env content_id action reason s w).2.2.2 = w := by
  refine ⟨?_, ?_, ?_, ?_⟩
  · rintro (hu | hu) <;> simp [send_approval_webhook, hu]
  · intro url hu hne
    constructor
    · cases hp : env.postStatus with
      | none => simp [send_approval_webhook, hu, hne, hp]
      | some status =>
        by_cases hs4 : 400 ≤ status ∧ status < 600 <;>
          simp [send_approval_webhook, hu, hne, hp, hs4]
    · cases hp : env.postStatus with
      | none => simp [send_approval_webhook, hu, hne, hp]
      | some status =>
        by_cases hs4 : 400 ≤ status ∧ status < 600
        · simp [send_approval_webhook, hu, hne, hp, hs4]
        · simp [send_approval_webhook, hu, hne, hp, hs4]
          omega
  · cases hu : env.webhookUrl with
    | none => simp [send_approval_webhook, hu]
    | some url =>
      by_cases hne : url = ""
      · simp [send_approval_webhook, hu, hne]
      · cases hp : env.postStatus with
        | none => simp [send_approval_webhook, hu, hne, hp]
        | some status =>
          by_cases hs4 : 400 ≤ status ∧ status < 600 <;>
            simp [send_approval_webhook, hu, hne, hp, hs4]
  · cases hu : env.webhookUrl with
    | none => simp [send_approval_webhook, hu]
    | some url =>
      by_cases hne : url = ""
      · simp [send_approval_webhook, hu, hne]
      · cases hp : env.postStatus with
        | none => simp [send_approval_webhook, hu, hne, hp]
        | some status =>
          by_cases hs4 : 400 ≤ status ∧ status < 600 <;>
            simp [send_approval_webhook, hu, hne, hp, hs4]

/-- C4 witness: with a configured URL and status 200, exactly the
expected payload is posted with a 30-second timeout; with no URL
configured the call fails without posting. -/
theorem C4_witness :
    (send_approval_webhook ⟨some ("https://hooks.example/approve"), some 200⟩
      7 ("approve") (some ("blurry video")) ⟨false, none, none⟩ ⟨[], 0⟩).2.1 =
      [⟨"https://hooks.example/approve",
        ⟨7, "approve", some ("blurry video")⟩, 30⟩] ∧
    send_approval_webhook ⟨none, some 200⟩ 7 ("reject") none
      ⟨false, none, none⟩ ⟨[], 0⟩ =
      (false, [], ⟨false, none, none⟩, ⟨[], 0⟩) := by
  have h1 := C4_webhook_contract ⟨some ("https://hooks.example/approve"), some 200⟩
    7 ("approve") (some ("blurry video")) ⟨false, none, none⟩ ⟨[], 0⟩
  have h2 := C4_webhook_contract ⟨none, some 200⟩ 7 ("reject") none
    ⟨false, none, none⟩ ⟨[], 0⟩
  exact ⟨(h1.2.1 ("https://hooks.example/approve") rfl (by decide)).1,
    h2.1 (Or.inl rfl)⟩

/-- C4 counterexample: a 304 Not Modified response is not 2xx, yet
`raise_for_status` does not raise for it, so `send_approval_webhook`
returns `True` — refuting the claim that every non-2xx response yields
`False`. -/
theorem C4_counterexample :
    ¬(200 ≤ 304 ∧ 304 < 300) ∧
    (send_approval_webhook ⟨some ("https://hooks.example/approve"), some 304⟩
      7 ("approve") none ⟨false, none, none⟩ ⟨[], 0⟩).1 = true := by
  refine ⟨by decide, by decide⟩

/-- The filter selections of the C5 scenario: source `manual`, status
`All`, category `All`, search `wallet`. -/
def walletFilters : ProductFilters := ⟨"manual", "All", "All", "wallet"⟩

lemma rowMatches_walletFilters (p : Product) :
    rowMatches walletFilters p =
      (p.source == "manual" && ilike p.title ("%wallet%")) := by
  have hconds : buildConds walletFilters =
      [Cond.srcEq ("manual"), Cond.titleIlike ("%wallet%")] := by decide
  simp [rowMatches, hconds, condHolds, Bool.and_assoc]

/-- C5 (amended): with source=`manual`, status=`All`, search=`wallet`,
the bound parameters are exactly `manual` and `%wallet%`, and for any
seeded table in which at most 50 rows match, the resulting row set
equals the rows of the table with `source = 'manual'` and
`title ILIKE '%wallet%'`.  The original unconditional claim fails once
more than 50 rows match, because of the query's `LIMIT 50` — see the
counterexample. -/
theorem C5_wallet_filter_rows (table : List Product)
    (hsmall : (table.filter (rowMatches walletFilters)).length ≤ 50) :
    buildParams walletFilters = ["manual", "%wallet%"] ∧
    ∀ p, p ∈ viewProductsRows walletFilters table ↔
      (p ∈ table ∧ p.source = "manual" ∧ ilike p.title ("%wallet%") = true) := by
  refine ⟨by decide, ?_⟩
  intro p
  have hperm : List.Perm
      ((table.filter (rowMatches walletFilters)).insertionSort
        createdDescOrder)
      (table.filter (rowMatches walletFilters)) :=
    List.perm_insertionSort createdDescOrder _
  have hlen :
      ((table.filter (rowMatches walletFilters)).insertionSort
        createdDescOrder).length ≤ 50 := by
    rw [hperm.length_eq]; exact hsmall
  have htake : viewProductsRows walletFilters table =
      ((table.filter (rowMatches walletFilters)).insertionSort
        createdDescOrder) := by
    unfold viewProductsRows
    exact List.take_of_length_le hlen
  rw [htake, hperm.mem_iff, List.mem_filter, rowMatches_walletFilters]
  simp [Bool.and_eq_true, beq_iff_eq, and_assoc]

/-- C5 witness: on a concrete seeded table of six products across two
sources, the query returns exactly the manual products whose title
contains `wallet` case-insensitively. -/
theorem C5_witness :
    ((([⟨1, "A", "Leather Wallet", "manual", "published", "Accessories", 5⟩,
        ⟨2, "B", "Leather Wallet", "shopify", "published", "Accessories", 4⟩,
        ⟨3, "C", "Phone Case", "manual", "published", "Accessories", 3⟩,
        ⟨4, "D", "WALLET insert", "manual", "published", "Accessories", 2⟩,
        ⟨5, "E", "Desk Lamp", "shopify", "published", "Accessories", 1⟩,
        ⟨6, "F", "Card wallet", "manual", "published", "Accessories", 0⟩] :
        List Product).filter (rowMatches walletFilters)).length ≤ 50) ∧
    ((⟨1, "A", "Leather Wallet", "manual", "published", "Accessories", 5⟩ :
      Product) ∈ viewProductsRows walletFilters
        [⟨1, "A", "Leather Wallet", "manual", "published", "Accessories", 5⟩,
         ⟨2, "B", "Leather Wallet", "shopify", "published", "Accessories", 4⟩,
         ⟨3, "C", "Phone Case", "manual", "published", "Accessories", 3⟩,
         ⟨4, "D", "WALLET insert", "manual", "published", "Accessories", 2⟩,
         ⟨5, "E", "Desk Lamp", "shopify", "published", "Accessories", 1⟩,
         ⟨6, "F", "Card wallet", "manual", "published", "Accessories", 0⟩]) ∧
    ¬((⟨2, "B", "Leather Wallet", "shopify", "published", "Accessories", 4⟩ :
      Product) ∈ viewProductsRows walletFilters
        [⟨1, "A", "Leather Wallet", "manual", "published", "Accessories", 5⟩,
         ⟨2, "B", "Leather Wallet", "shopify", "published", "Accessories", 4⟩,
         ⟨3, "C", "Phone Case", "manual", "published", "Accessories", 3⟩,
         ⟨4, "D", "WALLET insert", "manual", "published", "Accessories", 2⟩,
         ⟨5, "E", "Desk Lamp", "shopify", "published", "Accessories", 1⟩,
         ⟨6, "F", "Card wallet", "manual", "published", "Accessories", 0⟩]) := by
  have h := C5_wallet_filter_rows
    [⟨1, "A", "Leather Wallet", "manual", "published", "Accessories", 5⟩,
     ⟨2, "B", "Leather Wallet", "shopify", "published", "Accessories", 4⟩,
     ⟨3, "C", "Phone Case", "manual", "published", "Accessories", 3⟩,
     ⟨4, "D", "WALLET insert", "manual", "published", "Accessories", 2⟩,
     ⟨5, "E", "Desk Lamp", "shopify", "published", "Accessories", 1⟩,
     ⟨6, "F", "Card wallet", "manual", "published", "Accessories", 0⟩]
    (by decide)
  refine ⟨by decide, ?_, ?_⟩
  · exact (h.2 _).mpr ⟨by decide, by decide, by decide⟩
  · intro hmem
    have := (h.2 _).mp hmem
    exact absurd this.2.1 (by decide)

/-- The 51-row seeded table for the C5 counterexample: 51 distinct
manual products whose titles all contain `wallet`, with strictly
decreasing `created_at` so the `ORDER BY created_at DESC` order is
determined. -/
def walletTable51 : List Product :=
  (List.range 51).map (fun i =>
    ⟨i, "P", "wallet", "manual", "published", "Accessories", 100 - i⟩)

/-- C5 counterexample: on a 51-row seeded table in which every row
matches the filters, the row with id 50 matches yet is absent from the
query result (the query ends in `LIMIT 50`) — refuting the claim that
for any seeded table the resulting row set equals the matching set. -/
theorem C5_counterexample :
    (⟨50, "P", "wallet", "manual", "published", "Accessories", 50⟩ :
      Product) ∈ walletTable51 ∧
    (⟨50, "P", "wallet", "manual", "published", "Accessories", 50⟩ :
      Product).source = "manual" ∧
    ilike (⟨50, "P", "wallet", "manual", "published", "Accessories", 50⟩ :
      Product).title ("%wallet%") = true ∧
    ¬((⟨50, "P", "wallet", "manual", "published", "Accessories", 50⟩ :
      Product) ∈ viewProductsRows walletFilters walletTable51) := by
  refine ⟨by decide, by decide, by decide, by decide⟩

/-- C6: the Add Product submit handler rejects a submission with an
empty product id, title or description, or a non-positive price, with
a validation error and without issuing any database statement; a valid
submission issues an INSERT whose row has status
`pending_content_generation`. -/
theorem C6_add_product_validation (inp : AddProductInput) :
    ((inp.product_id = "" ∨ inp.title = "" ∨ inp.description = "" ∨
        inp.price ≤ 0) →
      ∃ m, addProductSubmit inp = AddProductResult.validationError m) ∧
    (inp.product_id ≠ "" → inp.title ≠ "" → inp.description ≠ "" →
      0 < inp.price →
      ∃ row, addProductSubmit inp = AddProductResult.inserted row ∧
        row.status = "pending_content_generation") := by
  constructor
  · intro hbad
    by_cases hreq : inp.product_id = "" ∨ inp.title = "" ∨ inp.description = ""
    · exact ⟨"Product ID, Title, and Description are required fields",
        by simp [addProductSubmit, hreq]⟩
    · have hprice : inp.price ≤ 0 := by tauto
      exact ⟨"Price must be greater than 0",
        by simp [addProductSubmit, hreq, hprice]⟩
  · intro h1 h2 h3 hpos
    have hreq : ¬(inp.product_id = "" ∨ inp.title = "" ∨
        inp.description = "") := by tauto
    have hprice : ¬inp.price ≤ 0 := not_le.mpr hpos
    unfold addProductSubmit
    rw [if_neg hreq, if_neg hprice]
    exact ⟨_, rfl, rfl⟩

/-- C6 witness: a missing description is rejected, and the concrete
valid submission `PROD-1` at price 9.99 is inserted with status
`pending_content_generation`. -/
theorem C6_witness :
    (∃ m, addProductSubmit
      ⟨"PROD-1", "Wallet", 999/100, "Accessories", "manual", "", "", "", ""⟩ =
        AddProductResult.validationError m) ∧
    (∃ row, addProductSubmit
      ⟨"PROD-1", "Wallet", 999/100, "Accessories", "manual", "", "", "",
        "Handcrafted leather wallet"⟩ = AddProductResult.inserted row ∧
      row.status = "pending_content_generation") := by
  have h1 := C6_add_product_validation
    ⟨"PROD-1", "Wallet", 999/100, "Accessories", "manual", "", "", "", ""⟩
  have h2 := C6_add_product_validation
    ⟨"PROD-1", "Wallet", 999/100, "Accessories", "manual", "", "", "",
      "Handcrafted leather wallet"⟩
  refine ⟨h1.1 (by simp), h2.2 (by simp) (by simp) (by simp) (by norm_num)⟩

/-- C7 (amended): the DELETE removes every row with the given id and
is idempotent — a second delete of the same id leaves the table
unchanged and completes without crashing, reporting the same
`Product deleted successfully!` message; no `not found` message exists
in the handler, see the counterexample. -/
theorem C7_delete_idempotent (env : DbEnv) (table : List Product)
    (pid : Nat) (s : SessionState) (w : World)
    (hconn : (get_db_connection env s w).val ≠ none) :
    (∀ p ∈ deleteProduct table pid, p.id ≠ pid) ∧
    deleteProduct (deleteProduct table pid) pid = deleteProduct table pid ∧
    (deleteConfirm env table pid s w).1 = deleteProduct table pid ∧
    (deleteConfirm env table pid s w).2.2.2.getLast? =
      some ("Product deleted successfully!") := by
  obtain ⟨c, hg⟩ := Option.ne_none_iff_exists'.mp hconn
  refine ⟨?_, ?_, ?_, ?_⟩
  · intro p hp
    have := List.of_mem_filter hp
    simpa using this
  · unfold deleteProduct
    rw [List.filter_filter]
    apply List.filter_congr
    intro p _
    cases hpd : decide (p.id ≠ pid) <;> simp [hpd]
  · unfold deleteConfirm
    simp [execute_query, hg]
  · unfold deleteConfirm
    simp [execute_query, hg]

/-- C7 witness: deleting id 1 from a concrete one-row table empties
it, and both deletes report the success message. -/
theorem C7_witness :
    (deleteConfirm ⟨true, "", some true, true⟩
      [⟨1, "PROD-1", "Wallet", "manual", "published", "Accessories", 0⟩] 1
      ⟨true, some ("alice"), some 0⟩ ⟨[0], 1⟩).1 = [] ∧
    (deleteConfirm ⟨true, "", some true, true⟩
      [⟨1, "PROD-1", "Wallet", "manual", "published", "Accessories", 0⟩] 1
      ⟨true, some ("alice"), some 0⟩ ⟨[0], 1⟩).2.2.2.getLast? =
      some ("Product deleted successfully!") := by
  have h := C7_delete_idempotent ⟨true, "", some true, true⟩
    [⟨1, "PROD-1", "Wallet", "manual", "published", "Accessories", 0⟩] 1
    ⟨true, some ("alice"), some 0⟩ ⟨[0], 1⟩ (by decide)
  exact ⟨by rw [h.2.2.1]; decide, h.2.2.2⟩

/-- C7 counterexample: deleting id 1 from a table that does not
contain it (the state after a first successful delete) still reports
`Product deleted successfully!` and surfaces no message containing
`not found` — refuting the claim that a second delete reports
`not found`. -/
theorem C7_counterexample :
    (deleteConfirm ⟨true, "", some true, true⟩ ([] : List Product) 1
      ⟨true, some ("alice"), some 0⟩ ⟨[0], 1⟩).2.2.2 =
      ["Product deleted successfully!"] ∧
    ((deleteConfirm ⟨true, "", some true, true⟩ ([] : List Product) 1
      ⟨true, some ("alice"), some 0⟩ ⟨[0], 1⟩).2.2.2.all
        (fun m => !(strContains m ("not found")))) = true := by
  refine ⟨by decide, by decide⟩

/-- C8 (amended): every failed login attempt ends with the generic
`Invalid username or password` message, but when the database is
unreachable (and no stored connection is reusable) the user
additionally sees `Database connection failed: <detail>` first — so
an infrastructure failure is user-distinguishable from invalid
credentials, contrary to the original claim (see the
counterexample). -/
theorem C8_failure_messages (env : DbEnv) (u : String)
    (s : SessionState) (w : World) :
    ((login_submit env u s w).val = false →
      (login_submit env u s w).msgs.getLast? =
        some ("Invalid username or password")) ∧
    (env.reachable = false →
      (∀ c, s.dbConnection = some c → c ∉ w.openConns) →
      (login_submit env u s w).msgs =
        ["Database connection failed: " ++ env.connectErrMsg,
         "Invalid username or password"]) := by
  constructor
  · intro hfail
    unfold login_submit
    by_cases hv : (verify_login env s w).val
    · exfalso
      have := (login_submit_shape env u s w).2.2
      rw [hfail] at this
      rw [hv] at this
      cases this
    · simp [hv]
  · intro hunreach hnoreuse
    have hgd : get_db_connection env s w =
        ⟨none, s, w, [],
          ["Database connection failed: " ++ env.connectErrMsg]⟩ := by
      cases hd : s.dbConnection with
      | none => simp [get_db_connection, hd, hunreach]
      | some c =>
        have hm : c ∉ w.openConns := hnoreuse c hd
        simp [get_db_connection, hd, hm, hunreach]
    have hv : verify_login env s w =
        ⟨false, s, w, [],
          ["Database connection failed: " ++ env.connectErrMsg]⟩ := by
      unfold verify_login
      rw [hgd]
    unfold login_submit
    rw [hv]
    simp

/-- C8 witness: with the database down and no reusable connection,
the user sees the connection-failure detail followed by the generic
message; the final message is the generic one on any failure. -/
theorem C8_witness :
    (login_submit ⟨false, "timeout", some false, true⟩ ("alice")
      ⟨false, none, none⟩ ⟨[], 0⟩).msgs =
      ["Database connection failed: timeout",
       "Invalid username or password"] ∧
    (login_submit ⟨true, "timeout", some false, true⟩ ("alice")
      ⟨false, none, none⟩ ⟨[], 0⟩).msgs.getLast? =
      some ("Invalid username or password") := by
  have h1 := C8_failure_messages ⟨false, "timeout", some false, true⟩
    ("alice") ⟨false, none, none⟩ ⟨[], 0⟩
  have h2 := C8_failure_messages ⟨true, "timeout", some false, true⟩
    ("alice") ⟨false, none, none⟩ ⟨[], 0⟩
  exact ⟨h1.2 rfl (by intro c hc; cases hc), h2.1 (by decide)⟩

/-- C8 counterexample: an invalid-credentials failure and a
database-unreachable failure on the same fresh session produce
different user-visible message lists (the second additionally shows
`Database connection failed: timeout`) — refuting the claim that the
two attempts produce the same user-visible output. -/
theorem C8_counterexample :
    (login_submit ⟨true, "timeout", some false, true⟩ ("alice")
      ⟨false, none, none⟩ ⟨[], 0⟩).msgs =
      ["Invalid username or password"] ∧
    (login_submit ⟨false, "timeout", some false, true⟩ ("alice")
      ⟨false, none, none⟩ ⟨[], 0⟩).msgs =
      ["Database connection failed: timeout",
       "Invalid username or password"] ∧
    (login_submit ⟨true, "timeout", some false, true⟩ ("alice")
      ⟨false, none, none⟩ ⟨[], 0⟩).msgs ≠
    (login_submit ⟨false, "timeout", some false, true⟩ ("alice")
      ⟨false, none, none⟩ ⟨[], 0⟩).msgs := by
  refine ⟨by decide, by decide, by decide⟩

lemma length_filter_split {α : Type} (p : α → Bool) (l : List α) :
    l.length = (l.filter p).length + (l.filter (fun a => !(p a))).length := by
  induction l with
  | nil => rfl
  | cons x t ih =>
    cases hx : p x
    · simp [List.filter_cons, hx]
      omega
    · simp [List.filter_cons, hx]
      omega

/-- C9: in the upload-history summary the failed-upload count equals
the number of filtered items whose `success` field is not truthy
(equivalently, total minus successful), and the success rate is 0 when
the filtered list is empty — the `total > 0` guard prevents any
division by zero. -/
theorem C9_upload_summary (platformFilter : List String)
    (items : List HistoryItem) :
    failedUploads platformFilter items =
      ((filteredHistory platformFilter items).filter
        (fun i => ¬(i.success = some true))).length ∧
    totalUploads platformFilter items =
      successfulUploads platformFilter items +
        failedUploads platformFilter items ∧
    (filteredHistory platformFilter items = [] →
      successRate platformFilter items = 0) := by
  have hsplit := length_filter_split
    (fun i => decide (i.success = some true))
    (filteredHistory platformFilter items)
  have hconv : ((filteredHistory platformFilter items).filter
        (fun i => ¬(i.success = some true))) =
      ((filteredHistory platformFilter items).filter
        (fun i => !(decide (i.success = some true)))) :=
    List.filter_congr (by intro a _; simp)
  have htot : totalUploads platformFilter items =
      (filteredHistory platformFilter items).length := rfl
  have hsucc : successfulUploads platformFilter items =
      ((filteredHistory platformFilter items).filter
        (fun i => decide (i.success = some true))).length := rfl
  refine ⟨?_, ?_, ?_⟩
  · unfold failedUploads
    rw [hconv]
    omega
  · unfold failedUploads
    omega
  · intro hempty
    unfold successRate totalUploads
    rw [hempty]
    simp

/-- C9 witness: on a concrete empty filtered history the success rate
is 0, and with one success out of three the failed count is 2. -/
theorem C9_witness :
    successRate ["tiktok"] [] = 0 ∧
    failedUploads ["tiktok"]
      [⟨some ("tiktok"), some true⟩, ⟨some ("tiktok"), some false⟩,
       ⟨some ("tiktok"), none⟩] = 2 := by
  have h1 := C9_upload_summary ["tiktok"] ([] : List HistoryItem)
  have h2 := C9_upload_summary ["tiktok"]
    [⟨some ("tiktok"), some true⟩, ⟨some ("tiktok"), some false⟩,
     ⟨some ("tiktok"), none⟩]
  refine ⟨h1.2.2 rfl, ?_⟩
  rw [h2.1]
  decide

lemma mk_ne_empty_iff (l : List Char) : String.mk l ≠ "" ↔ l ≠ [] := by
  constructor
  · intro h hl
    exact h (by rw [hl])
  · intro h he
    exact h (by simpa [String.ext_iff] using he)

lemma map_filter_swap {α β : Type} (f : α → β) (p : α → Bool)
    (q : β → Bool) (hpq : ∀ a, p a = q (f a)) (l : List α) :
    (l.filter p).map f = (l.map f).filter q := by
  induction l with
  | nil => rfl
  | cons x t ih =>
    cases hx : p x <;>
      rw [List.map_cons, List.filter_cons, List.filter_cons,
        ← hpq x, hx] <;>
      simp [ih]

lemma filter_map_trim (l : List (List Char)) :
    ((l.filter (fun url => trimChars url ≠ [])).map
      (fun url => String.mk (trimChars url))) =
    ((l.map (fun url => String.mk (trimChars url))).filter
      (fun url => url ≠ "")) := by
  apply map_filter_swap
  intro a
  simp [decide_eq_decide, mk_ne_empty_iff]

/-- C10: the stored images value holds at most 5 URLs; the processing
splits the text on newlines, strips each line, drops the blank ones
and truncates to the first 5; an empty list is stored as the empty
array literal. -/
theorem C10_images_processing (image_urls : String) :
    (imagesList image_urls).length ≤ 5 ∧
    imagesList image_urls =
      (((splitNl image_urls.toList).map
        (fun url => String.mk (trimChars url))).filter
          (fun url => url ≠ "")).take 5 ∧
    imagesArray [] = "\x7b\x7d" := by
  refine ⟨?_, ?_, rfl⟩
  · by_cases h : image_urls = ""
    · simp [imagesList, h]
    · simp only [imagesList, h, if_false]
      rw [List.length_take]
      exact Nat.min_le_left _ _
  · by_cases h : image_urls = ""
    · rw [h]
      decide
    · simp only [imagesList, h, if_false]
      rw [filter_map_trim]
